import Mathlib

/-!
# vsock: listener setup and accept, embedded in Lean

A shallow embedding of `listener_linux.go` and `fd_linux_gteq_1.12.go`.

* Go's `error` interface value is `Option Error` (`none` is `nil`).
* A `unix.Sockaddr` interface value is `Option Sockaddr` (`none` is `nil`).
* `uint32` and `int` values are `Nat` and `Int`; the code only copies and
  compares them, it does no arithmetic on them.
* The `listenFD` interface is a record of state transformers over an arbitrary
  descriptor state `σ`, so that a fake descriptor may answer each call in any
  way, also depending on the calls made before.
* Every call the code makes on a descriptor is appended, with what it returned,
  to the trace of the `World` that is threaded through the functions.
-/

namespace vsock

/-! ## Errors and addresses -/

/-- Errors that the runtime poller reports from a readiness wait
(package `internal/poll`): the descriptor is being closed, its deadline has
passed, or it cannot be polled. -/
inductive PollError
  | closing
  | deadlineExceeded
  | notPollable
  deriving DecidableEq, Repr

/-- Dynamic values of Go's `error` interface that are not `nil`: a
`syscall.Errno`, `os.ErrInvalid` (what `SyscallConn` returns on a file that is
not set), an error of the poller, or any other error. -/
inductive Error
  | errno (n : Nat)
  | invalid
  | poll (p : PollError)
  | other (msg : String)
  deriving DecidableEq, Repr

/-- Go's `error`: `none` is `nil`. -/
abbrev error := Option Error

/-- Value of `unix.EAGAIN` on Linux (amd64). -/
def EAGAIN : Error := Error.errno 11

/-- Value of `unix.ECONNABORTED` on Linux (amd64). -/
def ECONNABORTED : Error := Error.errno 103

/-- Value of `unix.VMADDR_PORT_ANY` (all 32 bits set). -/
def VMADDR_PORT_ANY : Nat := 4294967295

/-- Non-nil dynamic values of the `unix.Sockaddr` interface: a pointer to a
`unix.SockaddrVM`, a nil pointer of type `*unix.SockaddrVM`, or a socket
address of another family. -/
inductive Sockaddr
  | vm (CID Port : Nat)
  | vmNil
  | other (family : Nat)
  deriving DecidableEq, Repr

/-- The package's `Addr` type. -/
structure Addr where
  ContextID : Nat
  Port : Nat
  deriving DecidableEq, Repr

/-! ## The listening descriptor and the trace of calls made on it -/

/-- The `listenFD` interface: each method takes the descriptor state and gives
its return values with the new state. `κ` is the type of `connFD` values. -/
structure listenFD (σ κ : Type) where
  Close : σ → error × σ
  EarlyClose : σ → error × σ
  Accept4 : Int → σ → (κ × Option Sockaddr × error) × σ
  Bind : Sockaddr → σ → error × σ
  Listen : Int → σ → error × σ
  Getsockname : σ → (Option Sockaddr × error) × σ
  SetNonblocking : String → σ → error × σ
  SetDeadline : Int → σ → error × σ

/-- A call made by the code, with its arguments. -/
inductive Call
  | Bind (sa : Sockaddr)
  | Listen (n : Int)
  | Getsockname
  | SetNonblocking (name : String)
  | EarlyClose
  | Close
  | Accept4 (flags : Int)
  | SetDeadline (t : Int)
  | newConn (laddr raddr : Addr)
  deriving DecidableEq, Repr

/-- One entry of the trace: the call, the address it returned (for
`Getsockname` and `Accept4`) and the error it returned. -/
structure Event where
  call : Call
  sa : Option Sockaddr
  err : error
  deriving DecidableEq, Repr

/-- The descriptor state together with the calls made so far. -/
structure World (σ : Type) where
  st : σ
  trace : List Event

/-- A world in which no call has been made yet. -/
def World.init {σ : Type} (s : σ) : World σ := ⟨s, []⟩

/-- The four setup steps. -/
def Call.isSetup : Call → Bool
  | Call.Bind _ => true
  | Call.Listen _ => true
  | Call.Getsockname => true
  | Call.SetNonblocking _ => true
  | _ => false

/-- The `Bind` calls. -/
def Call.isBind : Call → Bool
  | Call.Bind _ => true
  | _ => false

/-- Run a method that returns only an error and record the call. -/
def invoke {σ : Type} (c : Call) (m : σ → error × σ) (w : World σ) :
    error × World σ :=
  ((m w.st).1, ⟨(m w.st).2, w.trace ++ [⟨c, none, (m w.st).1⟩]⟩)

/-- Run `Getsockname` and record the call. -/
def invokeGetsockname {σ κ : Type} (lfd : listenFD σ κ) (w : World σ) :
    (Option Sockaddr × error) × World σ :=
  ((lfd.Getsockname w.st).1,
    ⟨(lfd.Getsockname w.st).2,
      w.trace ++ [⟨Call.Getsockname, (lfd.Getsockname w.st).1.1, (lfd.Getsockname w.st).1.2⟩]⟩)

/-- Run `Accept4` and record the call. -/
def invokeAccept4 {σ κ : Type} (lfd : listenFD σ κ) (flags : Int) (w : World σ) :
    (κ × Option Sockaddr × error) × World σ :=
  ((lfd.Accept4 flags w.st).1,
    ⟨(lfd.Accept4 flags w.st).2,
      w.trace ++ [⟨Call.Accept4 flags, (lfd.Accept4 flags w.st).1.2.1,
        (lfd.Accept4 flags w.st).1.2.2⟩]⟩)

/-! ## listener_linux.go -/

/-- The `listener` struct. -/
structure listener (σ κ : Type) where
  fd : listenFD σ κ
  addr : Addr

/-- What a run-time panic was caused by. -/
inductive Panic
  | typeAssertion
  | nilDereference
  deriving DecidableEq, Repr

/-- Outcome of a function with results `(v, error)`: `ok v` is `(v, nil)`,
`err e` is `(nil, e)`, and `panic` is a run-time panic, after which nothing is
returned. -/
inductive Result (α : Type)
  | ok (v : α)
  | err (e : Error)
  | panic (p : Panic)

/-- Method `listener.Addr`. -/
def listener.Addr {σ κ : Type} (l : listener σ κ) : Addr := l.addr

/-- Method `listener.Close`. -/
def listener.Close {σ κ : Type} (l : listener σ κ) (w : World σ) : error × World σ :=
  invoke Call.Close l.fd.Close w

/-- Method `listener.SetDeadline`. -/
def listener.SetDeadline {σ κ : Type} (l : listener σ κ) (t : Int) (w : World σ) :
    error × World σ :=
  invoke (Call.SetDeadline t) (l.fd.SetDeadline t) w

/-- Method `listener.Accept`; `newConn` is the connection constructor. -/
def listener.Accept {σ κ ρ : Type} (newConn : κ → vsock.Addr → vsock.Addr → ρ)
    (l : listener σ κ) (w : World σ) : Result ρ × World σ :=
  let r := invokeAccept4 l.fd 0 w
  match r.1.2.2 with
  | some err => (Result.err err, r.2)
  | none =>
    match r.1.2.1 with
    | some (Sockaddr.vm cid port) =>
      let remote : vsock.Addr := ⟨cid, port⟩
      (Result.ok (newConn r.1.1 l.addr remote),
        ⟨r.2.st, r.2.trace ++ [⟨Call.newConn l.addr remote, none, none⟩]⟩)
    | some Sockaddr.vmNil => (Result.panic Panic.nilDereference, r.2)
    | _ => (Result.panic Panic.typeAssertion, r.2)

/-- Constant `listenBacklog`. -/
def listenBacklog : Int := 32

/-- Function `listenStreamLinux`. -/
def listenStreamLinux {σ κ : Type} (lfd : listenFD σ κ) (cid port : Nat) (w : World σ) :
    Result (listener σ κ) × World σ :=
  let port := if port = 0 then VMADDR_PORT_ANY else port
  let sa := Sockaddr.vm cid port
  let r1 := invoke (Call.Bind sa) (lfd.Bind sa) w
  match r1.1 with
  | some err => (Result.err err, r1.2)
  | none =>
    let r2 := invoke (Call.Listen listenBacklog) (lfd.Listen listenBacklog) r1.2
    match r2.1 with
    | some err => (Result.err err, r2.2)
    | none =>
      let r3 := invokeGetsockname lfd r2.2
      match r3.1.2 with
      | some err => (Result.err err, r3.2)
      | none =>
        let r4 := invoke (Call.SetNonblocking "vsock-listen")
          (lfd.SetNonblocking "vsock-listen") r3.2
        match r4.1 with
        | some err => (Result.err err, r4.2)
        | none =>
          match r3.1.1 with
          | some (Sockaddr.vm c p) => (Result.ok ⟨lfd, ⟨c, p⟩⟩, r4.2)
          | some Sockaddr.vmNil => (Result.panic Panic.nilDereference, r4.2)
          | _ => (Result.panic Panic.typeAssertion, r4.2)

/-- Function `listenStreamLinuxHandleError`. -/
def listenStreamLinuxHandleError {σ κ : Type} (lfd : listenFD σ κ) (cid port : Nat)
    (w : World σ) : Result (listener σ κ) × World σ :=
  let r := listenStreamLinux lfd cid port w
  match r.1 with
  | Result.err err =>
    let c := invoke Call.EarlyClose lfd.EarlyClose r.2
    (Result.err err, c.2)
  | Result.ok l => (Result.ok l, r.2)
  | Result.panic p => (Result.panic p, r.2)

/-! ## fd_linux_gteq_1.12.go -/

/-- One outcome of the kernel accept `unix.Accept4(int(fd), flags)`. -/
structure AcceptOutcome where
  nfd : Int
  sa : Option Sockaddr
  err : error
  deriving DecidableEq, Repr

/-- A call that `accept4` causes below the descriptor: the kernel accept, made
by the callback, or a readiness wait, made by the poller. -/
inductive SysCall
  | accept4 (fd flags : Int)
  | waitRead
  deriving DecidableEq, Repr

/-- The kernel accept calls among the calls. -/
def SysCall.isAccept : SysCall → Bool
  | SysCall.accept4 _ _ => true
  | SysCall.waitRead => false

/-- Number of kernel accept calls in a log. -/
def kernelAccepts (log : List SysCall) : Nat := log.countP SysCall.isAccept

/-- The `sysListenFD` receiver with the state that the runtime keeps for its
file: the descriptor number, whether the file `f` is set (so that `SyscallConn`
succeeds), whether the file has been closed, whether a deadline set on it has
passed, and the calls made below the descriptor so far. -/
structure sysListenFD where
  sysfd : Int
  fileValid : Bool
  closing : Bool
  expired : Bool
  calls : List SysCall
  deriving DecidableEq, Repr

/-- What happens while a readiness wait is suspended: the kernel reports the
descriptor readable, another goroutine closes the listener, or the deadline
set on the descriptor passes. -/
inductive WaitEvent
  | ready
  | close
  | timeout
  deriving DecidableEq, Repr

/-- What the surroundings of one `accept4` call will do: the outcomes of the
kernel accept calls to come and the events during the readiness waits to
come. -/
structure Env where
  accepts : List AcceptOutcome
  events : List WaitEvent
  deriving DecidableEq, Repr

/-- Modelled from the spec: method `sysListenFD.Close`, which is in
`fd_linux.go` and not among the sources. "`close()` releases the descriptor
unconditionally", and "after close, all further operations on it fail
deterministically": the file is marked as closed, which is the mark that the
poller looks at, and nil is returned. -/
def sysListenFD.Close (lfd : sysListenFD) : error × sysListenFD :=
  (none, { lfd with closing := true })

/-- What a call of `listener.Close` by another goroutine does to the state of
the listener's descriptor. -/
def closeByListener {σ κ : Type} (l : listener σ κ) (d : σ) : σ :=
  (l.Close (World.init d)).2.st

/-- The closure that `accept4` passes to `rc.Read`, after it has stored the
outcome of the kernel accept in `newFD`, `sa` and `err`: the switch on `err`. -/
def acceptDone (out : AcceptOutcome) : Bool :=
  match out.err with
  | some e => if e = EAGAIN ∨ e = ECONNABORTED then false else true
  | none => true

/-- The error check of the runtime poller on a descriptor: a closed file comes
before an elapsed deadline. -/
def pollError (d : sysListenFD) : Option PollError :=
  if d.closing then some PollError.closing
  else if d.expired then some PollError.deadlineExceeded
  else none

/-- The readiness wait of the runtime poller. It fails at once on a closed file
or an elapsed deadline. Otherwise it is suspended until something happens: on
readiness it returns nil; when another goroutine closes the listener
(`concurrentClose`) or the deadline passes, it is woken and checks again. It is
`none` when nothing that happens ends the wait. -/
def waitRead (concurrentClose : sysListenFD → sysListenFD) :
    sysListenFD → List WaitEvent → Option (Option PollError × sysListenFD × List WaitEvent)
  | d, [] =>
    match pollError d with
    | some e => some (some e, d, [])
    | none => none
  | d, ev :: evs1 =>
    match pollError d with
    | some e => some (some e, d, ev :: evs1)
    | none =>
      match ev with
      | WaitEvent.ready => some (none, d, evs1)
      | WaitEvent.close => waitRead concurrentClose (concurrentClose d) evs1
      | WaitEvent.timeout => waitRead concurrentClose { d with expired := true } evs1

/-- The loop of the poller's `Read` (`for` in `internal/poll.FD.RawRead`)
applied to the closure of `accept4`: call the callback, which makes the kernel
accept; if it returns false wait for readiness and call it again. The result is
the outcome last stored by the callback, the error of the wait that failed, the
descriptor and what is left of the outcomes and events. It is `none` when the
outcomes to come run out or a wait never ends. -/
def rawReadLoop (concurrentClose : sysListenFD → sysListenFD) (fd flags : Int) :
    List AcceptOutcome → sysListenFD → List WaitEvent →
    Option (AcceptOutcome × error × sysListenFD × List AcceptOutcome × List WaitEvent)
  | [], _, _ => none
  | out :: rest, d, evs =>
    if acceptDone out then
      some (out, none, { d with calls := d.calls ++ [SysCall.accept4 fd flags] }, rest, evs)
    else
      match waitRead concurrentClose
          { d with calls := d.calls ++ [SysCall.accept4 fd flags, SysCall.waitRead] } evs with
      | none => none
      | some (some e, d1, evs1) => some (out, some (Error.poll e), d1, rest, evs1)
      | some (none, d1, evs1) => rawReadLoop concurrentClose fd flags rest d1 evs1

/-- The `Read` method of the raw connection, which belongs to the Go runtime
and not to this package, applied to the closure of `accept4`: it fails before
the first call of the callback when the file has been closed or its deadline
has passed, and runs the loop otherwise. Before the first call the variables
`newFD`, `sa` and `err` hold 0, nil and nil. -/
def rawRead (concurrentClose : sysListenFD → sysListenFD) (fd flags : Int)
    (accepts : List AcceptOutcome) (d : sysListenFD) (evs : List WaitEvent) :
    Option (AcceptOutcome × error × sysListenFD × List AcceptOutcome × List WaitEvent) :=
  match pollError d with
  | some e => some (⟨0, none, none⟩, some (Error.poll e), d, accepts, evs)
  | none => rawReadLoop concurrentClose fd flags accepts d evs

/-- Method `sysListenFD.accept4`, run against `env`, with `concurrentClose` for
what a close of the listener by another goroutine does to the descriptor. -/
def sysListenFD.accept4 (lfd : sysListenFD) (flags : Int) (env : Env)
    (concurrentClose : sysListenFD → sysListenFD) :
    Option ((Int × Option Sockaddr × error) × sysListenFD × Env) :=
  if lfd.fileValid = false then
    some ((0, none, some Error.invalid), lfd, env)
  else
    match rawRead concurrentClose lfd.sysfd flags env.accepts lfd env.events with
    | none => none
    | some (out, doErr, d, as, evs) =>
      match doErr with
      | some e => some ((0, none, some e), d, ⟨as, evs⟩)
      | none => some ((out.nfd, out.sa, out.err), d, ⟨as, evs⟩)

/-! ## Descriptors for concrete runs -/

/-- The descriptor `lfd` with its `EarlyClose` method replaced. -/
def withEarlyClose {σ κ : Type} (lfd : listenFD σ κ) (ec : σ → error × σ) : listenFD σ κ :=
  ⟨lfd.Close, ec, lfd.Accept4, lfd.Bind, lfd.Listen, lfd.Getsockname, lfd.SetNonblocking,
    lfd.SetDeadline⟩

/-- A fake descriptor without state: `Bind`, `Listen`, `Getsockname`,
`SetNonblocking`, `EarlyClose` and `Accept4` return the values given for them,
`Close` and `SetDeadline` return nil. -/
def fakeFD (bind listen : error) (name : Option Sockaddr × error) (nonblock early : error)
    (acc : Int × Option Sockaddr × error) : listenFD Unit Int :=
  ⟨fun s => (none, s), fun s => (early, s), fun _ s => (acc, s), fun _ s => (bind, s),
    fun _ s => (listen, s), fun s => (name, s), fun _ s => (nonblock, s), fun _ s => (none, s)⟩

/-- A descriptor over the state of a `sysListenFD` whose `Close` is
`sysListenFD.Close`; its other methods are not used and return nil. -/
def sysCloseFD : listenFD sysListenFD Int :=
  ⟨sysListenFD.Close, fun s => (none, s), fun _ s => ((0, none, none), s), fun _ s => (none, s),
    fun _ s => (none, s), fun s => ((none, none), s), fun _ s => (none, s),
    fun _ s => (none, s)⟩

/-- A descriptor whose state is a `sysListenFD` with its surroundings and whose
`Accept4` answers with the result of `accept4`, or with an error when `accept4`
has no result; its other methods return nil. -/
def pollerFD : listenFD (sysListenFD × Env) Int :=
  ⟨fun s => (none, s), fun s => (none, s),
    fun flags s =>
      match s.1.accept4 flags s.2 (fun d => (sysListenFD.Close d).2) with
      | some (r, d, env) => (r, (d, env))
      | none => ((0, none, some (Error.other "no outcome left")), s),
    fun _ s => (none, s), fun _ s => (none, s), fun s => ((none, none), s),
    fun _ s => (none, s), fun _ s => (none, s)⟩

/-- A `sysListenFD` on descriptor 5, open and without elapsed deadline, whose
kernel accept first reports EAGAIN and then a connection on descriptor 7 from
the peer (3, 5000), with readiness reported during the wait. -/
def acceptScenario : sysListenFD × Env :=
  (⟨5, true, false, false, []⟩,
    ⟨[⟨-1, none, some EAGAIN⟩, ⟨7, some (Sockaddr.vm 3 5000), none⟩], [WaitEvent.ready]⟩)

/-! ## Facts about the accept loop -/

theorem acceptDone_iff (out : AcceptOutcome) :
    acceptDone out = true ↔ (out.err ≠ some EAGAIN ∧ out.err ≠ some ECONNABORTED) := by
  unfold acceptDone
  cases h : out.err with
  | none => simp
  | some e =>
    by_cases h1 : e = EAGAIN
    · simp [h1]
    · by_cases h2 : e = ECONNABORTED
      · simp [h2]
      · simp [h1, h2]

theorem acceptDone_false_of_transient (out : AcceptOutcome)
    (h : out.err = some EAGAIN ∨ out.err = some ECONNABORTED) : acceptDone out = false := by
  cases hd : acceptDone out with
  | false => rfl
  | true =>
    have h2 := (acceptDone_iff out).1 hd
    rcases h with h3 | h3
    · exact absurd h3 h2.1
    · exact absurd h3 h2.2

theorem pollError_none (d : sysListenFD) (h1 : d.closing = false) (h2 : d.expired = false) :
    pollError d = none := by
  simp [pollError, h1, h2]

/-- A wait on a closed file or after the deadline fails at once. -/
theorem waitRead_of_pollError (cc : sysListenFD → sysListenFD) (d : sysListenFD)
    (evs : List WaitEvent) (e : PollError) (h : pollError d = some e) :
    waitRead cc d evs = some (some e, d, evs) := by
  cases evs <;> simp [waitRead, h]

/-- Transient outcomes whose waits end in readiness are passed over by the
loop, one kernel accept each, and leave the descriptor open. -/
theorem rawReadLoop_retry (cc : sysListenFD → sysListenFD) (fd flags : Int)
    (ts : List AcceptOutcome) :
    ∀ (as : List AcceptOutcome) (evs : List WaitEvent) (d : sysListenFD),
      (∀ t ∈ ts, acceptDone t = false) → d.closing = false → d.expired = false →
      ∃ d1, d1.closing = false ∧ d1.expired = false ∧
        kernelAccepts d1.calls = kernelAccepts d.calls + ts.length ∧
        rawReadLoop cc fd flags (ts ++ as) d (List.replicate ts.length WaitEvent.ready ++ evs) =
          rawReadLoop cc fd flags as d1 evs := by
  induction ts with
  | nil => intro as evs d _ h1 h2; exact ⟨d, h1, h2, by simp, by simp⟩
  | cons t ts ih =>
    intro as evs d h h1 h2
    have ht : acceptDone t = false := h t (List.mem_cons_self _ _)
    obtain ⟨d1, g1, g2, g3, g4⟩ := ih as evs
      { d with calls := d.calls ++ [SysCall.accept4 fd flags, SysCall.waitRead] }
      (fun x hx => h x (List.mem_cons_of_mem _ hx)) h1 h2
    refine ⟨d1, g1, g2, ?_, ?_⟩
    · rw [g3]; simp [kernelAccepts, SysCall.isAccept]; omega
    · rw [← g4]
      simp [rawReadLoop, ht, List.replicate_succ, waitRead, pollError, h1, h2]

/-- An error of a readiness wait is an error of the poller. -/
theorem rawReadLoop_result (cc : sysListenFD → sysListenFD) (fd flags : Int)
    (as : List AcceptOutcome) :
    ∀ (d : sysListenFD) (evs : List WaitEvent) (out : AcceptOutcome) (doErr : error)
      (d1 : sysListenFD) (as1 : List AcceptOutcome) (evs1 : List WaitEvent),
      rawReadLoop cc fd flags as d evs = some (out, doErr, d1, as1, evs1) →
      (doErr = none → acceptDone out = true) ∧ (∀ e, doErr = some e → ∃ p, e = Error.poll p) := by
  induction as with
  | nil => intro d evs out doErr d1 as1 evs1 h; simp [rawReadLoop] at h
  | cons a as ih =>
    intro d evs out doErr d1 as1 evs1 h
    by_cases ha : acceptDone a = true
    · simp [rawReadLoop, ha] at h
      obtain ⟨h1, h2, -⟩ := h
      subst h1; subst h2
      exact ⟨fun _ => ha, by simp⟩
    · simp only [Bool.not_eq_true] at ha
      simp only [rawReadLoop, ha] at h
      cases hw : waitRead cc
          { d with calls := d.calls ++ [SysCall.accept4 fd flags, SysCall.waitRead] } evs with
      | none => simp [hw] at h
      | some v =>
        obtain ⟨w, d2, evs2⟩ := v
        cases w with
        | none =>
          simp only [hw] at h
          exact ih _ _ _ _ _ _ _ (by simpa using h)
        | some e =>
          simp [hw] at h
          obtain ⟨h1, h2, -⟩ := h
          subst h1; subst h2
          exact ⟨by simp, fun e1 he => ⟨e, by simpa using he.symm⟩⟩

/-- C4 (counterexample): one connection is pending and no transient signal
comes before it. When the deadline of the descriptor has passed before the
call, accept4 returns descriptor 0, a nil address and the deadline error; when
the file has been closed before the call, it returns the closing error; when
the file is not set, it returns the invalid-argument error. In all three runs
the pending connection is not returned and no kernel accept is made. -/
theorem accept4_fails_before_first_kernel_accept :
    sysListenFD.accept4 ⟨5, true, false, true, []⟩ 0
        ⟨[⟨7, some (Sockaddr.vm 3 5000), none⟩], []⟩ (fun d => (sysListenFD.Close d).2) =
      some ((0, none, some (Error.poll PollError.deadlineExceeded)),
        ⟨5, true, false, true, []⟩, ⟨[⟨7, some (Sockaddr.vm 3 5000), none⟩], []⟩) ∧
    sysListenFD.accept4 ⟨5, true, true, false, []⟩ 0
        ⟨[⟨7, some (Sockaddr.vm 3 5000), none⟩], []⟩ (fun d => (sysListenFD.Close d).2) =
      some ((0, none, some (Error.poll PollError.closing)),
        ⟨5, true, true, false, []⟩, ⟨[⟨7, some (Sockaddr.vm 3 5000), none⟩], []⟩) ∧
    sysListenFD.accept4 ⟨5, false, false, false, []⟩ 0
        ⟨[⟨7, some (Sockaddr.vm 3 5000), none⟩], []⟩ (fun d => (sysListenFD.Close d).2) =
      some ((0, none, some Error.invalid),
        ⟨5, false, false, false, []⟩, ⟨[⟨7, some (Sockaddr.vm 3 5000), none⟩], []⟩) :=
  ⟨rfl, rfl, rfl⟩

/-- C4 (amended): when accept4 is entered with its file set, not closed and
without elapsed deadline, the kernel accept outcomes to come are k transient
signals (EAGAIN or ECONNABORTED, in any mix) followed by an outcome that is
neither, and each of the k readiness waits ends in readiness, then accept4
returns that last outcome's descriptor, address and error unchanged, after
exactly k+1 kernel accept calls, leaving the outcomes after it unconsumed.
Whatever the descriptor and its surroundings, a result of accept4 never has the
error EAGAIN or ECONNABORTED. -/
theorem accept4_absorbs_transient_signals (lfd : sysListenFD) (flags : Int)
    (ts : List AcceptOutcome) (fin : AcceptOutcome) (rest : List AcceptOutcome)
    (evs : List WaitEvent) (cc : sysListenFD → sysListenFD)
    (hfile : lfd.fileValid = true) (hopen : lfd.closing = false) (hlive : lfd.expired = false)
    (hts : ∀ t ∈ ts, t.err = some EAGAIN ∨ t.err = some ECONNABORTED)
    (hfin : fin.err ≠ some EAGAIN ∧ fin.err ≠ some ECONNABORTED) :
    (∃ lfd1, lfd.accept4 flags
          ⟨ts ++ fin :: rest, List.replicate ts.length WaitEvent.ready ++ evs⟩ cc =
        some ((fin.nfd, fin.sa, fin.err), lfd1, ⟨rest, evs⟩) ∧
      kernelAccepts lfd1.calls = kernelAccepts lfd.calls + (ts.length + 1)) ∧
    (∀ (d : sysListenFD) (fl : Int) (env : Env) (c : sysListenFD → sysListenFD)
        (r : Int × Option Sockaddr × error) (d1 : sysListenFD) (env1 : Env),
      d.accept4 fl env c = some (r, d1, env1) →
        r.2.2 ≠ some EAGAIN ∧ r.2.2 ≠ some ECONNABORTED) := by
  constructor
  · have hfin1 : acceptDone fin = true := (acceptDone_iff fin).2 hfin
    obtain ⟨d1, g1, g2, g3, g4⟩ := rawReadLoop_retry cc lfd.sysfd flags ts (fin :: rest) evs lfd
      (fun t ht => acceptDone_false_of_transient t (hts t ht)) hopen hlive
    refine ⟨{ d1 with calls := d1.calls ++ [SysCall.accept4 lfd.sysfd flags] }, ?_, ?_⟩
    · simp [sysListenFD.accept4, hfile, rawRead, pollError_none lfd hopen hlive, g4, rawReadLoop,
        hfin1]
    · simp [kernelAccepts, SysCall.isAccept] at g3 ⊢
      omega
  · intro d fl env c r d1 env1 h
    unfold sysListenFD.accept4 at h
    by_cases hv : d.fileValid = false
    · simp [hv] at h
      obtain ⟨h1, -⟩ := h
      subst h1
      simp [EAGAIN, ECONNABORTED]
    · simp only [hv, if_false] at h
      cases hr : rawRead c d.sysfd fl env.accepts d env.events with
      | none => simp [hr] at h
      | some v =>
        obtain ⟨out, doErr, d2, as1, evs1⟩ := v
        have hres : (doErr = none → acceptDone out = true) ∧
            (∀ e, doErr = some e → ∃ p, e = Error.poll p) := by
          unfold rawRead at hr
          cases hp : pollError d with
          | some e =>
            simp [hp] at hr
            obtain ⟨-, h2, -⟩ := hr
            subst h2
            exact ⟨by simp, fun e1 he => ⟨e, by simpa using he.symm⟩⟩
          | none =>
            simp only [hp] at hr
            exact rawReadLoop_result _ _ _ _ _ _ _ _ _ _ _ hr
        cases hd : doErr with
        | none =>
          simp [hr, hd] at h
          obtain ⟨h1, -⟩ := h
          subst h1
          exact (acceptDone_iff out).1 (hres.1 hd)
        | some e =>
          simp [hr, hd] at h
          obtain ⟨h1, -⟩ := h
          subst h1
          obtain ⟨p, hp⟩ := hres.2 e hd
          subst hp
          simp [EAGAIN, ECONNABORTED]

/-- C4 (witness): on an open descriptor the kernel accept reports EAGAIN, then
ECONNABORTED, then a connection on descriptor 7 from the peer (3, 5000), and
both readiness waits end in readiness: accept4 returns that connection after
three kernel accept calls. -/
theorem accept4_absorbs_transient_signals_witness :
    ∃ lfd1, sysListenFD.accept4 ⟨5, true, false, false, []⟩ 0
          ⟨[⟨-1, none, some EAGAIN⟩, ⟨-1, none, some ECONNABORTED⟩,
            ⟨7, some (Sockaddr.vm 3 5000), none⟩], [WaitEvent.ready, WaitEvent.ready]⟩
          (fun d => (sysListenFD.Close d).2) =
        some ((7, some (Sockaddr.vm 3 5000), none), lfd1, ⟨[], []⟩) ∧
      kernelAccepts lfd1.calls = 3 :=
  (accept4_absorbs_transient_signals ⟨5, true, false, false, []⟩ 0
    [⟨-1, none, some EAGAIN⟩, ⟨-1, none, some ECONNABORTED⟩]
    ⟨7, some (Sockaddr.vm 3 5000), none⟩ [] [] (fun d => (sysListenFD.Close d).2)
    rfl rfl rfl (by decide) (by decide)).1

/-- C5: accept4 is entered on an open descriptor, the kernel accept reports k+1
transient signals and the first k readiness waits end in readiness. When,
during the wait entered after the last of these signals, another goroutine
calls Close on the listener of this descriptor, accept4 returns: its result is
descriptor 0, a nil address and the poller's closing error. When instead the
deadline passes during that wait, the result is descriptor 0, a nil address and
the deadline error. In both runs accept4 has made k+1 kernel accept calls and
none after the failed wait, and the error returned is not the transient signal
seen last. -/
theorem accept4_returns_when_listener_closed {κ : Type} (l : listener sysListenFD κ)
    (hclose : l.fd.Close = sysListenFD.Close)
    (lfd : sysListenFD) (flags : Int)
    (ts : List AcceptOutcome) (t : AcceptOutcome) (rest : List AcceptOutcome)
    (evs : List WaitEvent)
    (hfile : lfd.fileValid = true) (hopen : lfd.closing = false) (hlive : lfd.expired = false)
    (hts : ∀ x ∈ ts, x.err = some EAGAIN ∨ x.err = some ECONNABORTED)
    (ht : t.err = some EAGAIN ∨ t.err = some ECONNABORTED) :
    (∃ lfd1, lfd.accept4 flags
          ⟨ts ++ t :: rest, List.replicate ts.length WaitEvent.ready ++ WaitEvent.close :: evs⟩
          (closeByListener l) =
        some ((0, none, some (Error.poll PollError.closing)), lfd1, ⟨rest, evs⟩) ∧
      lfd1.closing = true ∧
      kernelAccepts lfd1.calls = kernelAccepts lfd.calls + (ts.length + 1)) ∧
    (∃ lfd1, lfd.accept4 flags
          ⟨ts ++ t :: rest, List.replicate ts.length WaitEvent.ready ++ WaitEvent.timeout :: evs⟩
          (closeByListener l) =
        some ((0, none, some (Error.poll PollError.deadlineExceeded)), lfd1, ⟨rest, evs⟩) ∧
      kernelAccepts lfd1.calls = kernelAccepts lfd.calls + (ts.length + 1)) ∧
    some (Error.poll PollError.closing) ≠ t.err ∧
    some (Error.poll PollError.deadlineExceeded) ≠ t.err := by
  have htd : acceptDone t = false := acceptDone_false_of_transient t ht
  have hcl : ∀ d : sysListenFD, closeByListener l d = { d with closing := true } := by
    intro d
    simp [closeByListener, listener.Close, invoke, World.init, hclose, sysListenFD.Close]
  refine ⟨?_, ?_, ?_, ?_⟩
  · obtain ⟨d1, g1, g2, g3, g4⟩ := rawReadLoop_retry (closeByListener l) lfd.sysfd flags ts
      (t :: rest) (WaitEvent.close :: evs) lfd
      (fun x hx => acceptDone_false_of_transient x (hts x hx)) hopen hlive
    refine ⟨{ d1 with calls := d1.calls ++ [SysCall.accept4 lfd.sysfd flags, SysCall.waitRead],
                      closing := true }, ?_, rfl, ?_⟩
    · have hw : waitRead (closeByListener l)
          { d1 with calls := d1.calls ++ [SysCall.accept4 lfd.sysfd flags, SysCall.waitRead] }
          (WaitEvent.close :: evs) = some (some PollError.closing,
            { d1 with calls := d1.calls ++ [SysCall.accept4 lfd.sysfd flags, SysCall.waitRead],
                      closing := true }, evs) := by
        have h0 : pollError
            { d1 with calls := d1.calls ++ [SysCall.accept4 lfd.sysfd flags, SysCall.waitRead] } =
            none := by simp [pollError, g1, g2]
        simp only [waitRead, h0, hcl]
        exact waitRead_of_pollError _ _ _ _ (by simp [pollError])
      simp [sysListenFD.accept4, hfile, rawRead, pollError_none lfd hopen hlive, g4, rawReadLoop,
        htd, hw]
    · simp [kernelAccepts, SysCall.isAccept] at g3 ⊢
      omega
  · obtain ⟨d1, g1, g2, g3, g4⟩ := rawReadLoop_retry (closeByListener l) lfd.sysfd flags ts
      (t :: rest) (WaitEvent.timeout :: evs) lfd
      (fun x hx => acceptDone_false_of_transient x (hts x hx)) hopen hlive
    refine ⟨{ d1 with calls := d1.calls ++ [SysCall.accept4 lfd.sysfd flags, SysCall.waitRead],
                      expired := true }, ?_, ?_⟩
    · have hw : waitRead (closeByListener l)
          { d1 with calls := d1.calls ++ [SysCall.accept4 lfd.sysfd flags, SysCall.waitRead] }
          (WaitEvent.timeout :: evs) = some (some PollError.deadlineExceeded,
            { d1 with calls := d1.calls ++ [SysCall.accept4 lfd.sysfd flags, SysCall.waitRead],
                      expired := true }, evs) := by
        have h0 : pollError
            { d1 with calls := d1.calls ++ [SysCall.accept4 lfd.sysfd flags, SysCall.waitRead] } =
            none := by simp [pollError, g1, g2]
        simp only [waitRead, h0]
        exact waitRead_of_pollError _ _ _ _ (by simp [pollError, g1])
      simp [sysListenFD.accept4, hfile, rawRead, pollError_none lfd hopen hlive, g4, rawReadLoop,
        htd, hw]
    · simp [kernelAccepts, SysCall.isAccept] at g3 ⊢
      omega
  · rcases ht with h | h <;> simp [h, EAGAIN, ECONNABORTED]
  · rcases ht with h | h <;> simp [h, EAGAIN, ECONNABORTED]

/-- C5 (witness): on an open descriptor the kernel accept reports EAGAIN and
then ECONNABORTED, the first wait ends in readiness and during the second the
listener is closed by another goroutine: accept4 returns descriptor 0, a nil
address and the closing error after two kernel accept calls, and the
descriptor is closed. -/
theorem accept4_returns_when_listener_closed_witness :
    ∃ lfd1, sysListenFD.accept4 ⟨5, true, false, false, []⟩ 0
          ⟨[⟨-1, none, some EAGAIN⟩, ⟨-1, none, some ECONNABORTED⟩],
            [WaitEvent.ready, WaitEvent.close]⟩
          (closeByListener (⟨sysCloseFD, ⟨2, 1024⟩⟩ : listener sysListenFD Int)) =
        some ((0, none, some (Error.poll PollError.closing)), lfd1, ⟨[], []⟩) ∧
      lfd1.closing = true ∧ kernelAccepts lfd1.calls = 2 :=
  (accept4_returns_when_listener_closed (⟨sysCloseFD, ⟨2, 1024⟩⟩ : listener sysListenFD Int) rfl
    ⟨5, true, false, false, []⟩ 0
    [⟨-1, none, some EAGAIN⟩] ⟨-1, none, some ECONNABORTED⟩ [] []
    rfl rfl rfl (by decide) (by decide)).1

/-! ## Facts about the listener setup -/

/-- The runs of `listenStreamLinux`: a failing step ends the run with its
error, and after four successful steps the outcome is decided by the dynamic
type of the address that `Getsockname` returned. -/
theorem listenStreamLinux_cases {σ κ : Type} (lfd : listenFD σ κ) (cid port : Nat) (s : σ) :
    (∃ e, (listenStreamLinux lfd cid port (World.init s)).1 = Result.err e ∧
      (listenStreamLinux lfd cid port (World.init s)).2.trace =
        [⟨Call.Bind (Sockaddr.vm cid (if port = 0 then VMADDR_PORT_ANY else port)), none, some e⟩]) ∨
    (∃ e, (listenStreamLinux lfd cid port (World.init s)).1 = Result.err e ∧
      (listenStreamLinux lfd cid port (World.init s)).2.trace =
        [⟨Call.Bind (Sockaddr.vm cid (if port = 0 then VMADDR_PORT_ANY else port)), none, none⟩,
         ⟨Call.Listen 32, none, some e⟩]) ∨
    (∃ e a, (listenStreamLinux lfd cid port (World.init s)).1 = Result.err e ∧
      (listenStreamLinux lfd cid port (World.init s)).2.trace =
        [⟨Call.Bind (Sockaddr.vm cid (if port = 0 then VMADDR_PORT_ANY else port)), none, none⟩,
         ⟨Call.Listen 32, none, none⟩, ⟨Call.Getsockname, a, some e⟩]) ∨
    (∃ e a, (listenStreamLinux lfd cid port (World.init s)).1 = Result.err e ∧
      (listenStreamLinux lfd cid port (World.init s)).2.trace =
        [⟨Call.Bind (Sockaddr.vm cid (if port = 0 then VMADDR_PORT_ANY else port)), none, none⟩,
         ⟨Call.Listen 32, none, none⟩, ⟨Call.Getsockname, a, none⟩,
         ⟨Call.SetNonblocking "vsock-listen", none, some e⟩]) ∨
    (∃ a, (listenStreamLinux lfd cid port (World.init s)).1 =
        (match a with
          | some (Sockaddr.vm c p) => Result.ok ⟨lfd, ⟨c, p⟩⟩
          | some Sockaddr.vmNil => Result.panic Panic.nilDereference
          | _ => Result.panic Panic.typeAssertion) ∧
      (listenStreamLinux lfd cid port (World.init s)).2.trace =
        [⟨Call.Bind (Sockaddr.vm cid (if port = 0 then VMADDR_PORT_ANY else port)), none, none⟩,
         ⟨Call.Listen 32, none, none⟩, ⟨Call.Getsockname, a, none⟩,
         ⟨Call.SetNonblocking "vsock-listen", none, none⟩]) := by
  simp only [listenStreamLinux, invoke, invokeGetsockname, World.init, List.nil_append,
    listenBacklog]
  generalize (if port = 0 then VMADDR_PORT_ANY else port) = q
  cases h1 : (lfd.Bind (Sockaddr.vm cid q) s).1 with
  | some e1 => simp [h1]
  | none =>
    cases h2 : (lfd.Listen 32 (lfd.Bind (Sockaddr.vm cid q) s).2).1 with
    | some e2 => simp [h1, h2]
    | none =>
      cases h3 : (lfd.Getsockname (lfd.Listen 32 (lfd.Bind (Sockaddr.vm cid q) s).2).2).1.2 with
      | some e3 => simp [h1, h2, h3]
      | none =>
        cases h4 : (lfd.SetNonblocking "vsock-listen"
            (lfd.Getsockname (lfd.Listen 32 (lfd.Bind (Sockaddr.vm cid q) s).2).2).2).1 with
        | some e4 => simp [h1, h2, h3, h4]
        | none =>
          simp only [h1, h2, h3, h4]
          generalize (lfd.Getsockname (lfd.Listen 32 (lfd.Bind (Sockaddr.vm cid q) s).2).2).1.1 = a
          refine Or.inr (Or.inr (Or.inr (Or.inr ⟨a, ?_⟩)))
          rcases a with _ | a
          · exact ⟨rfl, rfl⟩
          · cases a <;> exact ⟨rfl, rfl⟩

/-- The runs of `listenStreamLinuxHandleError` in terms of those of
`listenStreamLinux`: an error is followed by one `EarlyClose`, whose own error
is dropped; any other outcome is passed on untouched. -/
theorem listenStreamLinuxHandleError_cases {σ κ : Type} (lfd : listenFD σ κ) (cid port : Nat)
    (w : World σ) :
    (∃ e ce, (listenStreamLinux lfd cid port w).1 = Result.err e ∧
      (listenStreamLinuxHandleError lfd cid port w).1 = Result.err e ∧
      (listenStreamLinuxHandleError lfd cid port w).2.trace =
        (listenStreamLinux lfd cid port w).2.trace ++ [⟨Call.EarlyClose, none, ce⟩]) ∨
    ((∀ e, (listenStreamLinux lfd cid port w).1 ≠ Result.err e) ∧
      listenStreamLinuxHandleError lfd cid port w = listenStreamLinux lfd cid port w) := by
  unfold listenStreamLinuxHandleError
  cases h : (listenStreamLinux lfd cid port w).1 with
  | ok l => right; simp only [h]; exact ⟨by simp, by rw [← h]⟩
  | err e =>
    left
    exact ⟨e, (lfd.EarlyClose (listenStreamLinux lfd cid port w).2.st).1, rfl,
      by simp [h, invoke]⟩
  | panic q => right; simp only [h]; exact ⟨by simp, by rw [← h]⟩

/-- The runs of `listenStreamLinuxHandleError` from a world without calls. -/
theorem listenStreamLinuxHandleError_runs {σ κ : Type} (lfd : listenFD σ κ) (cid port : Nat)
    (s : σ) :
    (∃ e ce, (listenStreamLinuxHandleError lfd cid port (World.init s)).1 = Result.err e ∧ (listenStreamLinuxHandleError lfd cid port (World.init s)).2.trace =
        [⟨Call.Bind (Sockaddr.vm cid (if port = 0 then VMADDR_PORT_ANY else port)), none, some e⟩,
         ⟨Call.EarlyClose, none, ce⟩]) ∨
    (∃ e ce, (listenStreamLinuxHandleError lfd cid port (World.init s)).1 = Result.err e ∧ (listenStreamLinuxHandleError lfd cid port (World.init s)).2.trace =
        [⟨Call.Bind (Sockaddr.vm cid (if port = 0 then VMADDR_PORT_ANY else port)), none, none⟩,
         ⟨Call.Listen 32, none, some e⟩, ⟨Call.EarlyClose, none, ce⟩]) ∨
    (∃ e a ce, (listenStreamLinuxHandleError lfd cid port (World.init s)).1 = Result.err e ∧ (listenStreamLinuxHandleError lfd cid port (World.init s)).2.trace =
        [⟨Call.Bind (Sockaddr.vm cid (if port = 0 then VMADDR_PORT_ANY else port)), none, none⟩,
         ⟨Call.Listen 32, none, none⟩, ⟨Call.Getsockname, a, some e⟩,
         ⟨Call.EarlyClose, none, ce⟩]) ∨
    (∃ e a ce, (listenStreamLinuxHandleError lfd cid port (World.init s)).1 = Result.err e ∧ (listenStreamLinuxHandleError lfd cid port (World.init s)).2.trace =
        [⟨Call.Bind (Sockaddr.vm cid (if port = 0 then VMADDR_PORT_ANY else port)), none, none⟩,
         ⟨Call.Listen 32, none, none⟩, ⟨Call.Getsockname, a, none⟩,
         ⟨Call.SetNonblocking "vsock-listen", none, some e⟩, ⟨Call.EarlyClose, none, ce⟩]) ∨
    (∃ a, (listenStreamLinuxHandleError lfd cid port (World.init s)).1 =
        (match a with
          | some (Sockaddr.vm c p) => Result.ok ⟨lfd, ⟨c, p⟩⟩
          | some Sockaddr.vmNil => Result.panic Panic.nilDereference
          | _ => Result.panic Panic.typeAssertion) ∧
      (listenStreamLinuxHandleError lfd cid port (World.init s)).2.trace =
        [⟨Call.Bind (Sockaddr.vm cid (if port = 0 then VMADDR_PORT_ANY else port)), none, none⟩,
         ⟨Call.Listen 32, none, none⟩, ⟨Call.Getsockname, a, none⟩,
         ⟨Call.SetNonblocking "vsock-listen", none, none⟩]) := by
  rcases listenStreamLinuxHandleError_cases lfd cid port (World.init s) with
    ⟨e, ce, h1, h2, h3⟩ | ⟨h1, h2⟩
  · rcases listenStreamLinux_cases lfd cid port s with
      ⟨e1, g1, g2⟩ | ⟨e1, g1, g2⟩ | ⟨e1, a, g1, g2⟩ | ⟨e1, a, g1, g2⟩ | ⟨a, g1, g2⟩
    · rw [g1] at h1; cases h1
      exact Or.inl ⟨_, ce, h2, by rw [h3, g2]; rfl⟩
    · rw [g1] at h1; cases h1
      exact Or.inr (Or.inl ⟨_, ce, h2, by rw [h3, g2]; rfl⟩)
    · rw [g1] at h1; cases h1
      exact Or.inr (Or.inr (Or.inl ⟨_, a, ce, h2, by rw [h3, g2]; rfl⟩))
    · rw [g1] at h1; cases h1
      exact Or.inr (Or.inr (Or.inr (Or.inl ⟨_, a, ce, h2, by rw [h3, g2]; rfl⟩)))
    · exfalso
      rw [g1] at h1
      rcases a with _ | a
      · cases h1
      · cases a <;> cases h1
  · rcases listenStreamLinux_cases lfd cid port s with
      ⟨e1, g1, g2⟩ | ⟨e1, g1, g2⟩ | ⟨e1, a, g1, g2⟩ | ⟨e1, a, g1, g2⟩ | ⟨a, g1, g2⟩
    · exact absurd g1 (h1 e1)
    · exact absurd g1 (h1 e1)
    · exact absurd g1 (h1 e1)
    · exact absurd g1 (h1 e1)
    · exact Or.inr (Or.inr (Or.inr (Or.inr ⟨a, by rw [h2, g1], by rw [h2, g2]⟩)))

/-- C1 (amended): listenStreamLinuxHandleError returns a nil listener with an
error and has invoked EarlyClose exactly once if and only if one of the setup
steps Bind, Listen, Getsockname, SetNonblocking that it invoked returned an
error. When no setup step returned an error and the address that Getsockname
returned is a SockaddrVM, it returns a listener holding that descriptor, all
four steps have been invoked, and neither EarlyClose nor Close has been. -/
theorem handleError_closes_iff_setup_error {σ κ : Type} (lfd : listenFD σ κ) (cid port : Nat)
    (s : σ) :
    (((∃ e, (listenStreamLinuxHandleError lfd cid port (World.init s)).1 = Result.err e) ∧
        (listenStreamLinuxHandleError lfd cid port (World.init s)).2.trace.countP (fun ev => decide (ev.call = Call.EarlyClose)) = 1) ↔
      ∃ ev ∈ (listenStreamLinuxHandleError lfd cid port (World.init s)).2.trace, ev.call.isSetup = true ∧ ev.err ≠ none) ∧
    ((∀ ev ∈ (listenStreamLinuxHandleError lfd cid port (World.init s)).2.trace, ev.call.isSetup = true → ev.err = none) →
      (∀ ev ∈ (listenStreamLinuxHandleError lfd cid port (World.init s)).2.trace, ev.call = Call.Getsockname → ∃ c p, ev.sa = some (Sockaddr.vm c p)) →
      ∃ l, (listenStreamLinuxHandleError lfd cid port (World.init s)).1 = Result.ok l ∧ l.fd = lfd ∧
        (listenStreamLinuxHandleError lfd cid port (World.init s)).2.trace.map Event.call =
          [Call.Bind (Sockaddr.vm cid (if port = 0 then VMADDR_PORT_ANY else port)),
           Call.Listen 32, Call.Getsockname, Call.SetNonblocking "vsock-listen"] ∧
        ∀ ev ∈ (listenStreamLinuxHandleError lfd cid port (World.init s)).2.trace, ev.call ≠ Call.EarlyClose ∧ ev.call ≠ Call.Close) := by
  rcases listenStreamLinuxHandleError_runs lfd cid port s with
    ⟨e, ce, h1, h2⟩ | ⟨e, ce, h1, h2⟩ | ⟨e, a, ce, h1, h2⟩ | ⟨e, a, ce, h1, h2⟩ | ⟨a, h1, h2⟩
  · rw [h1, h2]; simp [Call.isSetup]
  · rw [h1, h2]; simp [Call.isSetup]
  · rw [h1, h2]; simp [Call.isSetup]
  · rw [h1, h2]; simp [Call.isSetup]
  · rw [h1, h2]
    rcases a with _ | a
    · simp [Call.isSetup]
    · cases a <;> simp [Call.isSetup]

/-- C1 (counterexample): on a descriptor whose four setup steps all return nil
and whose Getsockname returns an address of another family, all four steps
succeed and no listener is returned. -/
theorem handleError_all_steps_succeed_without_listener :
    (listenStreamLinuxHandleError
        (fakeFD none none (some (Sockaddr.other 2), none) none none (0, none, none))
        3 1024 (World.init ())).2.trace =
      [⟨Call.Bind (Sockaddr.vm 3 1024), none, none⟩, ⟨Call.Listen 32, none, none⟩,
       ⟨Call.Getsockname, some (Sockaddr.other 2), none⟩,
       ⟨Call.SetNonblocking "vsock-listen", none, none⟩] ∧
    ¬ ∃ l, (listenStreamLinuxHandleError
        (fakeFD none none (some (Sockaddr.other 2), none) none none (0, none, none))
        3 1024 (World.init ())).1 = Result.ok l := by
  refine ⟨by decide, ?_⟩
  rintro ⟨l, h⟩
  have h1 : (listenStreamLinuxHandleError
      (fakeFD none none (some (Sockaddr.other 2), none) none none (0, none, none))
      3 1024 (World.init ())).1 = Result.panic Panic.typeAssertion := rfl
  rw [h1] at h
  cases h

/-- C1 (witness): with a descriptor whose steps all return nil and whose
Getsockname returns the VM address (3, 1024), a listener on that descriptor is
returned and EarlyClose and Close are not invoked. -/
theorem handleError_closes_iff_setup_error_witness :
    ∃ l, (listenStreamLinuxHandleError
        (fakeFD none none (some (Sockaddr.vm 3 1024), none) none none (0, none, none))
        3 1024 (World.init ())).1 = Result.ok l ∧
      l.fd = fakeFD none none (some (Sockaddr.vm 3 1024), none) none none (0, none, none) ∧
      (listenStreamLinuxHandleError
        (fakeFD none none (some (Sockaddr.vm 3 1024), none) none none (0, none, none))
        3 1024 (World.init ())).2.trace.map Event.call =
          [Call.Bind (Sockaddr.vm 3 (if 1024 = 0 then VMADDR_PORT_ANY else 1024)),
           Call.Listen 32, Call.Getsockname, Call.SetNonblocking "vsock-listen"] ∧
      ∀ ev ∈ (listenStreamLinuxHandleError
        (fakeFD none none (some (Sockaddr.vm 3 1024), none) none none (0, none, none))
        3 1024 (World.init ())).2.trace, ev.call ≠ Call.EarlyClose ∧ ev.call ≠ Call.Close :=
  (handleError_closes_iff_setup_error
    (fakeFD none none (some (Sockaddr.vm 3 1024), none) none none (0, none, none))
    3 1024 ()).2 (by decide)
    (by
      have h : (listenStreamLinuxHandleError
          (fakeFD none none (some (Sockaddr.vm 3 1024), none) none none (0, none, none))
          3 1024 (World.init ())).2.trace =
          [⟨Call.Bind (Sockaddr.vm 3 1024), none, none⟩, ⟨Call.Listen 32, none, none⟩,
           ⟨Call.Getsockname, some (Sockaddr.vm 3 1024), none⟩,
           ⟨Call.SetNonblocking "vsock-listen", none, none⟩] := by decide
      rw [h]
      simp)

/-- Replacing `EarlyClose` does not change what `listenStreamLinux` does to the
world. -/
theorem listenStreamLinux_withEarlyClose {σ κ : Type} (lfd : listenFD σ κ)
    (ec : σ → error × σ) (cid port : Nat) (w : World σ) :
    (listenStreamLinux (withEarlyClose lfd ec) cid port w).2 =
        (listenStreamLinux lfd cid port w).2 ∧
    ∀ e, (listenStreamLinux lfd cid port w).1 = Result.err e →
      (listenStreamLinux (withEarlyClose lfd ec) cid port w).1 = Result.err e := by
  simp only [listenStreamLinux, invoke, invokeGetsockname, withEarlyClose, listenBacklog]
  generalize (if port = 0 then VMADDR_PORT_ANY else port) = q
  cases h1 : (lfd.Bind (Sockaddr.vm cid q) w.st).1 with
  | some e1 => simp [h1]
  | none =>
    cases h2 : (lfd.Listen 32 (lfd.Bind (Sockaddr.vm cid q) w.st).2).1 with
    | some e2 => simp [h1, h2]
    | none =>
      cases h3 : (lfd.Getsockname (lfd.Listen 32 (lfd.Bind (Sockaddr.vm cid q) w.st).2).2).1.2 with
      | some e3 => simp [h1, h2, h3]
      | none =>
        cases h4 : (lfd.SetNonblocking "vsock-listen"
            (lfd.Getsockname (lfd.Listen 32 (lfd.Bind (Sockaddr.vm cid q) w.st).2).2).2).1 with
        | some e4 => simp [h1, h2, h3, h4]
        | none =>
          simp only [h1, h2, h3, h4]
          generalize
            (lfd.Getsockname (lfd.Listen 32 (lfd.Bind (Sockaddr.vm cid q) w.st).2).2).1.1 = a
          rcases a with _ | a
          · simp
          · cases a <;> simp

/-- C2: when a setup step invoked by listenStreamLinux on the descriptor returns
the error e, listenStreamLinuxHandleError returns exactly e, whatever method is
put in the place of the descriptor's EarlyClose and whatever that returns. -/
theorem handleError_returns_setup_error {σ κ : Type} (lfd : listenFD σ κ) (cid port : Nat)
    (s : σ) (e : Error) (ec : σ → error × σ)
    (h : ∃ ev ∈ (listenStreamLinux lfd cid port (World.init s)).2.trace, ev.call.isSetup = true ∧ ev.err = some e) :
    (listenStreamLinuxHandleError (withEarlyClose lfd ec) cid port (World.init s)).1 =
      Result.err e := by
  have key : (listenStreamLinux lfd cid port (World.init s)).1 = Result.err e := by
    rcases listenStreamLinux_cases lfd cid port s with
      ⟨e1, g1, g2⟩ | ⟨e1, g1, g2⟩ | ⟨e1, a, g1, g2⟩ | ⟨e1, a, g1, g2⟩ | ⟨a, g1, g2⟩
    all_goals
      rw [g2] at h
      simp [Call.isSetup] at h
    all_goals
      rw [g1, h]
  have h2 := (listenStreamLinux_withEarlyClose lfd ec cid port (World.init s)).2 e key
  unfold listenStreamLinuxHandleError
  simp only [h2]

/-- C2 (witness): Bind fails with EADDRINUSE (errno 98) and the replaced
EarlyClose fails with EBADF (errno 9): the error returned is errno 98. -/
theorem handleError_returns_setup_error_witness :
    (listenStreamLinuxHandleError
      (withEarlyClose
        (fakeFD (some (Error.errno 98)) none (none, none) none none (0, none, none))
        (fun s => (some (Error.errno 9), s)))
      3 1024 (World.init ())).1 = Result.err (Error.errno 98) :=
  handleError_returns_setup_error
    (fakeFD (some (Error.errno 98)) none (none, none) none none (0, none, none))
    3 1024 () (Error.errno 98) (fun s => (some (Error.errno 9), s))
    ⟨⟨Call.Bind (Sockaddr.vm 3 1024), none, some (Error.errno 98)⟩, by decide, by decide⟩

/-- C3 (counterexample): when Bind, Listen and Getsockname return nil and
SetNonblocking returns EINVAL (errno 22), listenStreamLinux has invoked the full
four-step sequence and no listener is returned. -/
theorem listenStreamLinux_full_sequence_without_listener :
    (listenStreamLinux (fakeFD none none (some (Sockaddr.vm 3 1024), none) (some (Error.errno 22)) none
        (0, none, none))
        3 1024 (World.init ())).2.trace.map Event.call =
      [Call.Bind (Sockaddr.vm 3 1024), Call.Listen 32, Call.Getsockname,
       Call.SetNonblocking "vsock-listen"] ∧
    ¬ ∃ l, (listenStreamLinux (fakeFD none none (some (Sockaddr.vm 3 1024), none) (some (Error.errno 22)) none
        (0, none, none))
        3 1024 (World.init ())).1 = Result.ok l := by
  refine ⟨by decide, ?_⟩
  rintro ⟨l, h⟩
  have h1 : (listenStreamLinux (fakeFD none none (some (Sockaddr.vm 3 1024), none) (some (Error.errno 22)) none
        (0, none, none))
      3 1024 (World.init ())).1 = Result.err (Error.errno 22) := rfl
  rw [h1] at h
  cases h

/-- C3 (amended): the calls that listenStreamLinux makes on the descriptor are a
non-empty initial part of Bind, Listen(32), Getsockname,
SetNonblocking("vsock-listen"), in that order; every call before the last one
returned nil, and when fewer than four calls were made the last one returned an
error; every Listen call has backlog 32. A listener is returned exactly when the
full four-step sequence was invoked, every step returned nil and Getsockname
returned a SockaddrVM. -/
theorem listenStreamLinux_steps_in_order {σ κ : Type} (lfd : listenFD σ κ) (cid port : Nat)
    (s : σ) :
    (listenStreamLinux lfd cid port (World.init s)).2.trace.map Event.call <+:
      [Call.Bind (Sockaddr.vm cid (if port = 0 then VMADDR_PORT_ANY else port)),
        Call.Listen 32, Call.Getsockname, Call.SetNonblocking "vsock-listen"] ∧
    (listenStreamLinux lfd cid port (World.init s)).2.trace ≠ [] ∧
    (∀ ev ∈ (listenStreamLinux lfd cid port (World.init s)).2.trace.dropLast, ev.err = none) ∧
    ((listenStreamLinux lfd cid port (World.init s)).2.trace.length < 4 →
      ∃ ev e, (listenStreamLinux lfd cid port (World.init s)).2.trace.getLast? = some ev ∧ ev.err = some e) ∧
    (∀ ev ∈ (listenStreamLinux lfd cid port (World.init s)).2.trace, ∀ n, ev.call = Call.Listen n → n = 32) ∧
    ((∃ l, (listenStreamLinux lfd cid port (World.init s)).1 = Result.ok l) ↔
      ((listenStreamLinux lfd cid port (World.init s)).2.trace.map Event.call =
        [Call.Bind (Sockaddr.vm cid (if port = 0 then VMADDR_PORT_ANY else port)),
        Call.Listen 32, Call.Getsockname, Call.SetNonblocking "vsock-listen"] ∧
       (∀ ev ∈ (listenStreamLinux lfd cid port (World.init s)).2.trace, ev.err = none) ∧
       ∃ c p, (⟨Call.Getsockname, some (Sockaddr.vm c p), none⟩ : Event) ∈ (listenStreamLinux lfd cid port (World.init s)).2.trace)) := by
  rcases listenStreamLinux_cases lfd cid port s with
    ⟨e1, g1, g2⟩ | ⟨e1, g1, g2⟩ | ⟨e1, a, g1, g2⟩ | ⟨e1, a, g1, g2⟩ | ⟨a, g1, g2⟩
  · rw [g1, g2]
    refine ⟨⟨[Call.Listen 32, Call.Getsockname, Call.SetNonblocking "vsock-listen"], rfl⟩, ?_⟩
    simp
  · rw [g1, g2]
    refine ⟨⟨[Call.Getsockname, Call.SetNonblocking "vsock-listen"], rfl⟩, ?_⟩
    simp
  · rw [g1, g2]
    refine ⟨⟨[Call.SetNonblocking "vsock-listen"], rfl⟩, ?_⟩
    simp
  · rw [g1, g2]
    refine ⟨⟨[], rfl⟩, ?_⟩
    simp
  · rw [g1, g2]
    refine ⟨⟨[], rfl⟩, ?_⟩
    rcases a with _ | a
    · simp
    · cases a <;> simp

/-- C8 (counterexample): for the requested port 0 the address handed to Bind
has port 4294967295, and no Bind call has the address with port 0. -/
theorem listenStreamLinux_bind_port_zero_rewritten :
    ((listenStreamLinux (fakeFD none none (some (Sockaddr.vm 3 1024), none) none none
        (0, none, none)) 3 0 (World.init ())).2.trace.map Event.call).head? =
      some (Call.Bind (Sockaddr.vm 3 4294967295)) ∧
    Call.Bind (Sockaddr.vm 3 0) ∉
      (listenStreamLinux (fakeFD none none (some (Sockaddr.vm 3 1024), none) none none
        (0, none, none)) 3 0 (World.init ())).2.trace.map Event.call := by
  decide

/-- C8 (amended): for every context identifier cid and requested port p, the
first call of listenStreamLinux is Bind, it is the only Bind call, and its
address is (cid, p) when p is not 0 and (cid, VMADDR_PORT_ANY), that is
(cid, 4294967295), when p is 0. -/
theorem listenStreamLinux_bind_address {σ κ : Type} (lfd : listenFD σ κ) (cid port : Nat)
    (s : σ) :
    ((listenStreamLinux lfd cid port (World.init s)).2.trace.map Event.call).head? =
      some (Call.Bind (Sockaddr.vm cid (if port = 0 then 4294967295 else port))) ∧
    (∀ ev ∈ (listenStreamLinux lfd cid port (World.init s)).2.trace, ∀ sa, ev.call = Call.Bind sa →
      sa = Sockaddr.vm cid (if port = 0 then VMADDR_PORT_ANY else port)) ∧
    (listenStreamLinux lfd cid port (World.init s)).2.trace.countP (fun ev => ev.call.isBind) = 1 := by
  have hany : VMADDR_PORT_ANY = 4294967295 := rfl
  rcases listenStreamLinux_cases lfd cid port s with
    ⟨e1, g1, g2⟩ | ⟨e1, g1, g2⟩ | ⟨e1, a, g1, g2⟩ | ⟨e1, a, g1, g2⟩ | ⟨a, g1, g2⟩
  all_goals
    rw [g2]
    simp [hany, Call.isBind]

/-- A listener is returned exactly when the four steps return nil and the
address that `Getsockname` returned is a `SockaddrVM`; the listener holds the
descriptor and that address. -/
theorem listenStreamLinux_ok_iff {σ κ : Type} (lfd : listenFD σ κ) (cid port : Nat) (s : σ)
    (l : listener σ κ) :
    (listenStreamLinux lfd cid port (World.init s)).1 = Result.ok l ↔
      ((lfd.Bind (Sockaddr.vm cid (if port = 0 then VMADDR_PORT_ANY else port)) s).1 = none ∧
       (lfd.Listen 32 (lfd.Bind (Sockaddr.vm cid (if port = 0 then VMADDR_PORT_ANY else port)) s).2).1 = none ∧
       (lfd.SetNonblocking "vsock-listen"
          (lfd.Getsockname (lfd.Listen 32 (lfd.Bind (Sockaddr.vm cid (if port = 0 then VMADDR_PORT_ANY else port)) s).2).2).2).1 = none ∧
       ∃ c p, (lfd.Getsockname
            (lfd.Listen 32 (lfd.Bind (Sockaddr.vm cid (if port = 0 then VMADDR_PORT_ANY else port)) s).2).2).1 =
              (some (Sockaddr.vm c p), none) ∧
          l = ⟨lfd, ⟨c, p⟩⟩) := by
  simp only [listenStreamLinux, invoke, invokeGetsockname, World.init, List.nil_append,
    listenBacklog]
  generalize (if port = 0 then VMADDR_PORT_ANY else port) = q
  cases h1 : (lfd.Bind (Sockaddr.vm cid q) s).1 with
  | some e1 => simp
  | none =>
    cases h2 : (lfd.Listen 32 (lfd.Bind (Sockaddr.vm cid q) s).2).1 with
    | some e2 => simp
    | none =>
      cases h3 : (lfd.Getsockname (lfd.Listen 32 (lfd.Bind (Sockaddr.vm cid q) s).2).2).1.2 with
      | some e3 => simp [Prod.ext_iff, h3]
      | none =>
        cases h4 : (lfd.SetNonblocking "vsock-listen"
            (lfd.Getsockname (lfd.Listen 32 (lfd.Bind (Sockaddr.vm cid q) s).2).2).2).1 with
        | some e4 => simp
        | none =>
          simp only [true_and]
          cases h5 : (lfd.Getsockname
              (lfd.Listen 32 (lfd.Bind (Sockaddr.vm cid q) s).2).2).1.1 with
          | none => simp [Prod.ext_iff, h5]
          | some a =>
            cases a with
            | vm c p =>
              simp only [Result.ok.injEq, Prod.ext_iff, h5, h3, and_true, Option.some.injEq,
                Sockaddr.vm.injEq]
              constructor
              · intro h; exact ⟨c, p, ⟨rfl, rfl⟩, h.symm⟩
              · rintro ⟨c1, p1, ⟨rfl, rfl⟩, h⟩; exact h.symm
            | vmNil => simp [Prod.ext_iff, h5]
            | other f => simp [Prod.ext_iff, h5]

/-- C9: when listenStreamLinux returns a listener, the value that the
descriptor's Getsockname returned, at the state left by Bind and Listen, is a
SockaddrVM without error whose (CID, Port) pair is exactly the address stored in
the listener and the address reported by listener.Addr, whatever cid and port
were requested; Getsockname has been invoked exactly once, with that result.
Conversely, when the four steps return nil and Getsockname returns the
SockaddrVM (c, p), a listener is returned whose stored and reported address is
(c, p). -/
theorem listenStreamLinux_addr_from_getsockname {σ κ : Type} (lfd : listenFD σ κ)
    (cid port : Nat) (s : σ) :
    (∀ l, (listenStreamLinux lfd cid port (World.init s)).1 = Result.ok l →
      (lfd.Getsockname
          (lfd.Listen 32 (lfd.Bind (Sockaddr.vm cid (if port = 0 then VMADDR_PORT_ANY else port)) s).2).2).1 =
        (some (Sockaddr.vm l.addr.ContextID l.addr.Port), none) ∧
      (lfd.Getsockname
          (lfd.Listen 32 (lfd.Bind (Sockaddr.vm cid (if port = 0 then VMADDR_PORT_ANY else port)) s).2).2).1 =
        (some (Sockaddr.vm l.Addr.ContextID l.Addr.Port), none) ∧
      (listenStreamLinux lfd cid port (World.init s)).2.trace.filter (fun ev => decide (ev.call = Call.Getsockname)) =
        [⟨Call.Getsockname, some (Sockaddr.vm l.Addr.ContextID l.Addr.Port), none⟩]) ∧
    (∀ c p,
      (lfd.Bind (Sockaddr.vm cid (if port = 0 then VMADDR_PORT_ANY else port)) s).1 = none →
      (lfd.Listen 32 (lfd.Bind (Sockaddr.vm cid (if port = 0 then VMADDR_PORT_ANY else port)) s).2).1 = none →
      (lfd.Getsockname
          (lfd.Listen 32 (lfd.Bind (Sockaddr.vm cid (if port = 0 then VMADDR_PORT_ANY else port)) s).2).2).1 =
        (some (Sockaddr.vm c p), none) →
      (lfd.SetNonblocking "vsock-listen"
          (lfd.Getsockname (lfd.Listen 32 (lfd.Bind (Sockaddr.vm cid (if port = 0 then VMADDR_PORT_ANY else port)) s).2).2).2).1 = none →
      ∃ l, (listenStreamLinux lfd cid port (World.init s)).1 = Result.ok l ∧ l.addr = ⟨c, p⟩ ∧ l.Addr = ⟨c, p⟩) := by
  constructor
  · intro l h
    obtain ⟨-, -, -, c, p, hg, hl⟩ := (listenStreamLinux_ok_iff lfd cid port s l).1 h
    subst hl
    refine ⟨hg, hg, ?_⟩
    rcases listenStreamLinux_cases lfd cid port s with
      ⟨e1, g1, g2⟩ | ⟨e1, g1, g2⟩ | ⟨e1, a, g1, g2⟩ | ⟨e1, a, g1, g2⟩ | ⟨a, g1, g2⟩
    · rw [g1] at h; cases h
    · rw [g1] at h; cases h
    · rw [g1] at h; cases h
    · rw [g1] at h; cases h
    · rw [g1] at h
      rcases a with _ | a
      · cases h
      · cases a with
        | vm c1 p1 =>
          simp only [Result.ok.injEq, listener.mk.injEq, Addr.mk.injEq, true_and] at h
          obtain ⟨rfl, rfl⟩ := h
          rw [g2]
          simp [listener.Addr]
        | vmNil => cases h
        | other f => cases h
  · intro c p h1 h2 h3 h4
    exact ⟨⟨lfd, ⟨c, p⟩⟩,
      (listenStreamLinux_ok_iff lfd cid port s ⟨lfd, ⟨c, p⟩⟩).2 ⟨h1, h2, h4, c, p, h3, rfl⟩,
      rfl, rfl⟩

/-- C9 (witness): context identifier 3 and port 1024 are requested and
Getsockname returns (7, 4321): the listener stores and reports (7, 4321). -/
theorem listenStreamLinux_addr_from_getsockname_witness :
    ∃ l, (listenStreamLinux (fakeFD none none (some (Sockaddr.vm 7 4321), none) none none (0, none, none))
        3 1024 (World.init ())).1 = Result.ok l ∧
      l.addr = ⟨7, 4321⟩ ∧ l.Addr = ⟨7, 4321⟩ ∧
      ((fakeFD none none (some (Sockaddr.vm 7 4321), none) none none (0, none, none)).Getsockname ()).1 =
        (some (Sockaddr.vm 7 4321), none) :=
  ⟨⟨(fakeFD none none (some (Sockaddr.vm 7 4321), none) none none (0, none, none)), ⟨7, 4321⟩⟩, rfl, rfl, rfl,
    ((listenStreamLinux_addr_from_getsockname (fakeFD none none (some (Sockaddr.vm 7 4321), none) none none (0, none, none))
      3 1024 ()).1 ⟨(fakeFD none none (some (Sockaddr.vm 7 4321), none) none none (0, none, none)), ⟨7, 4321⟩⟩ rfl).1⟩

/-- C7 (counterexample): context identifier 3 and port 0 are requested, every
step succeeds and Getsockname returns (99, 0): a listener is returned whose
ContextID is not 3 and whose Port is 0. -/
theorem listenStreamLinux_addr_not_from_request :
    ∃ l, (listenStreamLinux (fakeFD none none (some (Sockaddr.vm 99 0), none) none none (0, none, none))
        3 0 (World.init ())).1 = Result.ok l ∧
      l.addr.ContextID ≠ 3 ∧ l.addr.Port = 0 :=
  ⟨⟨(fakeFD none none (some (Sockaddr.vm 99 0), none) none none (0, none, none)), ⟨99, 0⟩⟩, rfl, by decide, rfl⟩

/-- C7 (amended): when listenStreamLinux returns a listener and the address that
the descriptor's Getsockname returned, at the state left by Bind and Listen, is
the SockaddrVM (cid, q), where q is the requested port when that is neither 0
nor VMADDR_PORT_ANY and a nonzero port when 0 or VMADDR_PORT_ANY was requested,
then the listener address is exactly (cid, q): its ContextID is cid, its Port is
the requested port when that is concrete, and its Port is the nonzero port q
that Getsockname reported when 'any' was requested. -/
theorem listenStreamLinux_addr_of_kernel_answer {σ κ : Type} (lfd : listenFD σ κ)
    (cid port : Nat) (s : σ) (l : listener σ κ) (q : Nat)
    (h : (listenStreamLinux lfd cid port (World.init s)).1 = Result.ok l)
    (hk : (lfd.Getsockname
        (lfd.Listen 32 (lfd.Bind (Sockaddr.vm cid (if port = 0 then VMADDR_PORT_ANY else port)) s).2).2).1.1 =
      some (Sockaddr.vm cid q))
    (hc : port ≠ 0 → port ≠ VMADDR_PORT_ANY → q = port)
    (ha : port = 0 ∨ port = VMADDR_PORT_ANY → q ≠ 0) :
    l.addr = ⟨cid, q⟩ ∧
    l.addr.ContextID = cid ∧
    (port ≠ 0 → port ≠ VMADDR_PORT_ANY → l.addr.Port = port) ∧
    (port = 0 ∨ port = VMADDR_PORT_ANY → l.addr.Port = q ∧ l.addr.Port ≠ 0) := by
  obtain ⟨-, -, -, c, p, hg, hl⟩ := (listenStreamLinux_ok_iff lfd cid port s l).1 h
  subst hl
  rw [hg] at hk
  simp only [Option.some.injEq, Sockaddr.vm.injEq] at hk
  obtain ⟨rfl, rfl⟩ := hk
  exact ⟨rfl, rfl, hc, fun h0 => ⟨rfl, ha h0⟩⟩

/-- C7 (witness): port 0 is requested with context identifier 3 and Getsockname
returns (3, 49152): the listener address is (3, 49152), with the nonzero port
that Getsockname reported. -/
theorem listenStreamLinux_addr_of_kernel_answer_witness :
    ∃ l, (listenStreamLinux (fakeFD none none (some (Sockaddr.vm 3 49152), none) none none (0, none, none))
        3 0 (World.init ())).1 = Result.ok l ∧
      l.addr = ⟨3, 49152⟩ ∧ l.addr.Port ≠ 0 :=
  ⟨⟨(fakeFD none none (some (Sockaddr.vm 3 49152), none) none none (0, none, none)), ⟨3, 49152⟩⟩, rfl,
    (listenStreamLinux_addr_of_kernel_answer (fakeFD none none (some (Sockaddr.vm 3 49152), none) none none (0, none, none))
      3 0 () ⟨(fakeFD none none (some (Sockaddr.vm 3 49152), none) none none (0, none, none)), ⟨3, 49152⟩⟩ 49152 rfl rfl
      (fun h0 => absurd rfl h0) (fun _ => by decide)).1,
    by decide⟩

/-! ## Facts about Accept -/

/-- The runs of `listener.Accept`. -/
theorem listener_Accept_cases {σ κ ρ : Type} (newConn : κ → Addr → Addr → ρ)
    (l : listener σ κ) (s : σ) :
    (∃ e, (l.fd.Accept4 0 s).1.2.2 = some e ∧
      (l.Accept newConn (World.init s)) = (Result.err e, ⟨(l.fd.Accept4 0 s).2, [⟨Call.Accept4 0, (l.fd.Accept4 0 s).1.2.1, some e⟩]⟩)) ∨
    ((l.fd.Accept4 0 s).1.2.2 = none ∧ ∃ x y, (l.fd.Accept4 0 s).1.2.1 = some (Sockaddr.vm x y) ∧
      (l.Accept newConn (World.init s)) = (Result.ok (newConn (l.fd.Accept4 0 s).1.1 l.addr ⟨x, y⟩),
        ⟨(l.fd.Accept4 0 s).2, [⟨Call.Accept4 0, some (Sockaddr.vm x y), none⟩,
          ⟨Call.newConn l.addr ⟨x, y⟩, none, none⟩]⟩)) ∨
    ((l.fd.Accept4 0 s).1.2.2 = none ∧ (∀ x y, (l.fd.Accept4 0 s).1.2.1 ≠ some (Sockaddr.vm x y)) ∧
      ∃ pn, (l.Accept newConn (World.init s)) = (Result.panic pn, ⟨(l.fd.Accept4 0 s).2, [⟨Call.Accept4 0, (l.fd.Accept4 0 s).1.2.1, none⟩]⟩)) := by
  simp only [listener.Accept, invokeAccept4, World.init, List.nil_append]
  cases h1 : (l.fd.Accept4 0 s).1.2.2 with
  | some e => simp
  | none =>
    cases h2 : (l.fd.Accept4 0 s).1.2.1 with
    | none => simp
    | some a =>
      cases a with
      | vm x y => simp; exact ⟨x, y, ⟨rfl, rfl⟩, rfl, rfl, rfl⟩
      | vmNil => simp
      | other f => simp

/-- C6: Accept invokes Accept4 once, with flags 0. When that returns the
descriptor c and the peer address SockaddrVM (x, y) without error, Accept
returns the result of the connection constructor applied to c, the listener's
own address and the remote address (x, y), and that is the only call of the
constructor. When Accept4 returns an error, Accept returns no connection and
that error unchanged, and the constructor is not invoked. -/
theorem accept_wraps_accept4_result {σ κ ρ : Type} (newConn : κ → Addr → Addr → ρ)
    (l : listener σ κ) (s : σ) :
    (∀ c x y, (l.fd.Accept4 0 s).1 = (c, some (Sockaddr.vm x y), none) →
      (l.Accept newConn (World.init s)) = (Result.ok (newConn c l.addr ⟨x, y⟩),
        ⟨(l.fd.Accept4 0 s).2, [⟨Call.Accept4 0, some (Sockaddr.vm x y), none⟩,
          ⟨Call.newConn l.addr ⟨x, y⟩, none, none⟩]⟩)) ∧
    (∀ e, (l.fd.Accept4 0 s).1.2.2 = some e →
      (l.Accept newConn (World.init s)) = (Result.err e, ⟨(l.fd.Accept4 0 s).2, [⟨Call.Accept4 0, (l.fd.Accept4 0 s).1.2.1, some e⟩]⟩)) := by
  constructor
  · intro c x y h
    simp [listener.Accept, invokeAccept4, World.init, h]
  · intro e h
    simp [listener.Accept, invokeAccept4, World.init, h]

/-- C6 (witness): the listener with address (2, 1024) on a descriptor whose
kernel accept reports EAGAIN and then the peer (3, 5000) on descriptor 7 returns
the connection built from 7, (2, 1024) and (3, 5000). -/
theorem accept_wraps_accept4_result_witness :
    ((⟨pollerFD, ⟨2, 1024⟩⟩ : listener (sysListenFD × Env) Int).Accept
        (fun c a r => (c, a, r)) (World.init acceptScenario)).1 =
      Result.ok (7, ⟨2, 1024⟩, ⟨3, 5000⟩) :=
  congrArg Prod.fst
    ((accept_wraps_accept4_result (fun c a r => (c, a, r))
      (⟨pollerFD, ⟨2, 1024⟩⟩ : listener (sysListenFD × Env) Int) acceptScenario).1 7 3 5000
      rfl)

/-- C10: when the address that a successful Getsockname returned is a
SockaddrVM, listenStreamLinux does not panic, and when the address that a
successful Accept4 returned is a SockaddrVM, Accept does not panic. When
listenStreamLinux panics, Getsockname and SetNonblocking have both returned nil
and no call returned an error; when Accept panics, its only call is an Accept4
that returned nil. -/
theorem type_assertions_total_on_vm_addresses {σ κ ρ : Type} (lfd : listenFD σ κ)
    (cid port : Nat) (s : σ) (newConn : κ → Addr → Addr → ρ) (l : listener σ κ) (t : σ) :
    ((∀ ev ∈ (listenStreamLinux lfd cid port (World.init s)).2.trace, ev.call = Call.Getsockname → ev.err = none →
        ∃ c p, ev.sa = some (Sockaddr.vm c p)) →
      ∀ pn, (listenStreamLinux lfd cid port (World.init s)).1 ≠ Result.panic pn) ∧
    ((∀ ev ∈ (l.Accept newConn (World.init t)).2.trace, ev.call = Call.Accept4 0 → ev.err = none →
        ∃ x y, ev.sa = some (Sockaddr.vm x y)) →
      ∀ pn, (l.Accept newConn (World.init t)).1 ≠ Result.panic pn) ∧
    (∀ pn, (listenStreamLinux lfd cid port (World.init s)).1 = Result.panic pn →
      (∃ a, (⟨Call.Getsockname, a, none⟩ : Event) ∈ (listenStreamLinux lfd cid port (World.init s)).2.trace) ∧
      (⟨Call.SetNonblocking "vsock-listen", none, none⟩ : Event) ∈ (listenStreamLinux lfd cid port (World.init s)).2.trace ∧
      ∀ ev ∈ (listenStreamLinux lfd cid port (World.init s)).2.trace, ev.err = none) ∧
    (∀ pn, (l.Accept newConn (World.init t)).1 = Result.panic pn →
      ∃ a, (l.Accept newConn (World.init t)).2.trace = [⟨Call.Accept4 0, a, none⟩]) := by
  refine ⟨?_, ?_, ?_, ?_⟩
  · intro hvm pn hp
    rcases listenStreamLinux_cases lfd cid port s with
      ⟨e1, g1, g2⟩ | ⟨e1, g1, g2⟩ | ⟨e1, a, g1, g2⟩ | ⟨e1, a, g1, g2⟩ | ⟨a, g1, g2⟩
    · rw [g1] at hp; cases hp
    · rw [g1] at hp; cases hp
    · rw [g1] at hp; cases hp
    · rw [g1] at hp; cases hp
    · rw [g2] at hvm
      obtain ⟨c, p, hcp⟩ := hvm ⟨Call.Getsockname, a, none⟩ (by simp) rfl rfl
      simp only at hcp
      subst hcp
      rw [g1] at hp
      cases hp
  · intro hvm pn hp
    rcases listener_Accept_cases newConn l t with ⟨e, h1, h2⟩ | ⟨h1, x, y, h2, h3⟩ | ⟨h1, h2, q, h3⟩
    · rw [h2] at hp; cases hp
    · rw [h3] at hp; cases hp
    · rw [h3] at hvm
      obtain ⟨x, y, hxy⟩ := hvm ⟨Call.Accept4 0, (l.fd.Accept4 0 t).1.2.1, none⟩ (by simp) rfl rfl
      exact h2 x y hxy
  · intro pn hp
    rcases listenStreamLinux_cases lfd cid port s with
      ⟨e1, g1, g2⟩ | ⟨e1, g1, g2⟩ | ⟨e1, a, g1, g2⟩ | ⟨e1, a, g1, g2⟩ | ⟨a, g1, g2⟩
    · rw [g1] at hp; cases hp
    · rw [g1] at hp; cases hp
    · rw [g1] at hp; cases hp
    · rw [g1] at hp; cases hp
    · rw [g2]
      refine ⟨⟨a, by simp⟩, by simp, by simp⟩
  · intro pn hp
    rcases listener_Accept_cases newConn l t with ⟨e, h1, h2⟩ | ⟨h1, x, y, h2, h3⟩ | ⟨h1, h2, q, h3⟩
    · rw [h2] at hp; cases hp
    · rw [h3] at hp; cases hp
    · rw [h3]
      exact ⟨_, rfl⟩

/-- C10 (witness): a descriptor whose Getsockname returns the SockaddrVM
(3, 1024) and whose Accept4 returns the SockaddrVM (3, 5000): neither
listenStreamLinux nor Accept panics. -/
theorem type_assertions_total_on_vm_addresses_witness :
    (∀ pn, (listenStreamLinux (fakeFD none none (some (Sockaddr.vm 3 1024), none) none none
        (7, some (Sockaddr.vm 3 5000), none))
        3 1024 (World.init ())).1 ≠ Result.panic pn) ∧
    (∀ pn, ((⟨(fakeFD none none (some (Sockaddr.vm 3 1024), none) none none
        (7, some (Sockaddr.vm 3 5000), none)), ⟨3, 1024⟩⟩ : listener Unit Int).Accept (fun c a r => (c, a, r))
        (World.init ())).1 ≠ Result.panic pn) :=
  ⟨(type_assertions_total_on_vm_addresses (fakeFD none none (some (Sockaddr.vm 3 1024), none) none none
        (7, some (Sockaddr.vm 3 5000), none))
      3 1024 () (fun c a r => (c, a, r))
      (⟨(fakeFD none none (some (Sockaddr.vm 3 1024), none) none none
        (7, some (Sockaddr.vm 3 5000), none)), ⟨3, 1024⟩⟩ : listener Unit Int) ()).1
      (by
        have ht : (listenStreamLinux (fakeFD none none (some (Sockaddr.vm 3 1024), none) none none
        (7, some (Sockaddr.vm 3 5000), none))
            3 1024 (World.init ())).2.trace =
            [⟨Call.Bind (Sockaddr.vm 3 1024), none, none⟩, ⟨Call.Listen 32, none, none⟩,
             ⟨Call.Getsockname, some (Sockaddr.vm 3 1024), none⟩,
             ⟨Call.SetNonblocking "vsock-listen", none, none⟩] := by decide
        rw [ht]
        simp),
    (type_assertions_total_on_vm_addresses (fakeFD none none (some (Sockaddr.vm 3 1024), none) none none
        (7, some (Sockaddr.vm 3 5000), none))
      3 1024 () (fun c a r => (c, a, r))
      (⟨(fakeFD none none (some (Sockaddr.vm 3 1024), none) none none
        (7, some (Sockaddr.vm 3 5000), none)), ⟨3, 1024⟩⟩ : listener Unit Int) ()).2.1
      (by
        have ht : ((⟨(fakeFD none none (some (Sockaddr.vm 3 1024), none) none none
        (7, some (Sockaddr.vm 3 5000), none)), ⟨3, 1024⟩⟩ : listener Unit Int).Accept (fun c a r => (c, a, r))
            (World.init ())).2.trace =
            [⟨Call.Accept4 0, some (Sockaddr.vm 3 5000), none⟩,
             ⟨Call.newConn ⟨3, 1024⟩ ⟨3, 5000⟩, none, none⟩] := by decide
        rw [ht]
        simp)⟩

end vsock
